import Mathlib

/-!
Verification of the AI_Tour_Guide backend (trip_planner.py, main.py,
travel_guide.py) against its natural-language specification.

The Python source is shallowly embedded: pure computations become Lean
functions over `ℤ`/`ℚ`/`String`/`List`; Python dictionaries become
association lists `List (String × RVal)`; code that can raise becomes
`Except PyExc`; external HTTP responses are passed in as explicit values.
Python's `round` (banker's rounding) is modelled exactly on rationals.
-/

set_option maxHeartbeats 1000000

namespace TourGuide

/-- Python exceptions relevant to this code base.  `keyError` and
`indexError` are the ones that subclass Python's `LookupError`;
`httpException` models FastAPI's `HTTPException`. -/
inductive PyExc where
  | keyError (key : String)
  | indexError
  | typeError
  | httpException (status_code : ℤ) (detail : String)
  | other (msg : String)
  deriving DecidableEq, Repr

/-- Whether the exception is an instance of Python's `LookupError`
(in CPython, `KeyError` and `IndexError` are its subclasses). -/
def PyExc.isLookupError : PyExc → Bool
  | .keyError _ => true
  | .indexError => true
  | _ => false

/-- Python's `str(e)` for the exceptions we model; for starlette's
`HTTPException` this is `f"{status_code}: {detail}"`. -/
def PyExc.pyStr : PyExc → String
  | .keyError k => k
  | .indexError => "list index out of range"
  | .typeError => "type error"
  | .httpException c d => toString c ++ ": " ++ d
  | .other m => m

/-- Python's built-in `round` with `ndigits = 0` on an exact rational:
round-half-to-even (banker's rounding). -/
def pyRound (q : ℚ) : ℤ :=
  let n : ℤ := ⌊q⌋
  let r : ℚ := q - n
  if r < 1/2 then n
  else if 1/2 < r then n + 1
  else if 2 ∣ n then n else n + 1

/-- Python's `round(q, 2)`: round to 2 decimal places, half to even. -/
def pyRound2 (q : ℚ) : ℚ :=
  (pyRound (q * 100) : ℚ) / 100

/-- `class TravelMode(Enum)` from trip_planner.py. -/
inductive TravelMode where
  | DRIVE
  | WALK
  | BICYCLE
  | TRANSIT
  | TWO_WHEELER
  deriving DecidableEq, Repr

/-- The `.value` of each enum member (equal to its name). -/
def TravelMode.value : TravelMode → String
  | .DRIVE => "DRIVE"
  | .WALK => "WALK"
  | .BICYCLE => "BICYCLE"
  | .TRANSIT => "TRANSIT"
  | .TWO_WHEELER => "TWO_WHEELER"

/-- One entry of the fares dictionary: `{"fare": ..., "currency": ...}`. -/
structure FareEntry where
  fare : ℚ
  currency : String
  deriving DecidableEq, Repr

/-- Result of `IntegratedFareCalculator.get_comprehensive_fares`: the
`fares` dictionary (as an association list in insertion order) and
`distance_km`. -/
structure FareInfo where
  fares : List (String × FareEntry)
  distance_km : ℚ
  deriving DecidableEq, Repr

/-- `fallback_rates` of `IntegratedFareCalculator`: per-km rates. -/
def fallback_rates_car : ℚ := 7
def fallback_rates_bike : ℚ := 3

/-- `IntegratedFareCalculator.get_comprehensive_fares` from
trip_planner.py: flat per-km fare for DRIVE (personal_car) and
TWO_WHEELER (personal_bike); empty fares for every other mode. -/
def get_comprehensive_fares (distance_meters : ℚ) (mode : TravelMode) : FareInfo :=
  let distance_km := distance_meters / 1000
  let fares : List (String × FareEntry) :=
    if mode = TravelMode.DRIVE then
      [("personal_car", { fare := (pyRound (distance_km * fallback_rates_car) : ℚ),
                          currency := "INR" })]
    else if mode = TravelMode.TWO_WHEELER then
      [("personal_bike", { fare := (pyRound (distance_km * fallback_rates_bike) : ℚ),
                           currency := "INR" })]
    else []
  { fares := fares, distance_km := pyRound2 distance_km }

/-- Claim C2: for every distance and mode, `get_comprehensive_fares`
returns exactly the `personal_car` entry `round(d/1000 * 7)` INR for
DRIVE, exactly the `personal_bike` entry `round(d/1000 * 3)` INR for
TWO_WHEELER, an empty fares mapping for every other mode; `distance_km`
is `d/1000` rounded to 2 decimals, and every fare amount is a whole
number of currency units. -/
theorem fares_comprehensive_spec (d : ℚ) (mode : TravelMode) :
    (mode = TravelMode.DRIVE →
      (get_comprehensive_fares d mode).fares =
        [("personal_car", { fare := (pyRound (d / 1000 * 7) : ℚ), currency := "INR" })]) ∧
    (mode = TravelMode.TWO_WHEELER →
      (get_comprehensive_fares d mode).fares =
        [("personal_bike", { fare := (pyRound (d / 1000 * 3) : ℚ), currency := "INR" })]) ∧
    (mode ≠ TravelMode.DRIVE → mode ≠ TravelMode.TWO_WHEELER →
      (get_comprehensive_fares d mode).fares = []) ∧
    (get_comprehensive_fares d mode).distance_km = pyRound2 (d / 1000) ∧
    (∀ k e, (k, e) ∈ (get_comprehensive_fares d mode).fares → ∃ n : ℤ, e.fare = (n : ℚ)) := by
  refine ⟨?_, ?_, ?_, ?_, ?_⟩
  · rintro rfl
    simp [get_comprehensive_fares, fallback_rates_car]
  · rintro rfl
    simp [get_comprehensive_fares, fallback_rates_bike]
  · intro h1 h2
    simp [get_comprehensive_fares, h1, h2]
  · rfl
  · intro k e hmem
    cases mode <;> simp [get_comprehensive_fares, fallback_rates_car, fallback_rates_bike] at hmem
    · exact ⟨pyRound (d / 1000 * 7), by rw [hmem.2]⟩
    · exact ⟨pyRound (d / 1000 * 3), by rw [hmem.2]⟩

/-- Witness for C2: at 2500 meters, DRIVE yields a single personal_car
entry of 18 INR (2.5 km × 7 = 17.5, banker-rounded to 18),
TWO_WHEELER yields personal_bike 8 INR, and WALK yields no fares. -/
theorem fares_comprehensive_spec_witness :
    (get_comprehensive_fares 2500 TravelMode.DRIVE).fares =
      [("personal_car", { fare := 18, currency := "INR" })] ∧
    (get_comprehensive_fares 2500 TravelMode.TWO_WHEELER).fares =
      [("personal_bike", { fare := 8, currency := "INR" })] ∧
    (get_comprehensive_fares 2500 TravelMode.WALK).fares = [] := by
  refine ⟨?_, ?_, ?_⟩
  · rw [(fares_comprehensive_spec 2500 TravelMode.DRIVE).1 rfl]
    norm_num [pyRound]
  · rw [(fares_comprehensive_spec 2500 TravelMode.TWO_WHEELER).2.1 rfl]
    norm_num [pyRound]
  · exact (fares_comprehensive_spec 2500 TravelMode.WALK).2.2.1 (by simp) (by simp)

/-- A route dictionary as built by
`EnhancedRouteOptimizer._get_routes_google_api`, plus the two keys added
later in the pipeline (`route_number` by `get_all_route_strategies`,
`fare_info` by `process_routes_with_fares`); those are `none` until set. -/
structure Route where
  summary : String
  distance : ℤ
  duration : ℤ
  distance_text : String
  duration_text : String
  polyline : String
  strategy : String
  route_number : Option ℤ := none
  fare_info : Option FareInfo := none
  deriving DecidableEq, Repr

/-- The duplicate key used by `_remove_duplicates`:
`(r["distance"], r["duration"], r["strategy"])`. -/
def dedupKey (r : Route) : ℤ × ℤ × String :=
  (r.distance, r.duration, r.strategy)

/-- The loop of `EnhancedRouteOptimizer._remove_duplicates`, with the
Python `seen` set modelled as the list of keys inserted so far. -/
def remove_duplicates_aux (seen : List (ℤ × ℤ × String)) : List Route → List Route
  | [] => []
  | r :: rs =>
    if dedupKey r ∈ seen then remove_duplicates_aux seen rs
    else r :: remove_duplicates_aux (dedupKey r :: seen) rs

/-- `EnhancedRouteOptimizer._remove_duplicates` from trip_planner.py. -/
def remove_duplicates (routes : List Route) : List Route :=
  remove_duplicates_aux [] routes

/-- Spec-side description of deduplication, written from the spec's
words: keep each route whose key has not appeared earlier, i.e. keep the
head and recursively keep the first occurrences among later routes whose
key differs from the head's. -/
def keepFirstOccurrences : List Route → List Route
  | [] => []
  | r :: rs =>
    r :: keepFirstOccurrences (rs.filter fun x => decide (dedupKey x ≠ dedupKey r))
termination_by l => l.length
decreasing_by
  simp only [List.length_cons]
  exact Nat.lt_succ_of_le (List.length_filter_le _ _)

theorem remove_duplicates_aux_eq_keepFirst (rs : List Route) :
    ∀ seen, remove_duplicates_aux seen rs =
      keepFirstOccurrences (rs.filter fun r => decide (dedupKey r ∉ seen)) := by
  induction rs with
  | nil => intro seen; simp [remove_duplicates_aux, keepFirstOccurrences]
  | cons r rs ih =>
    intro seen
    by_cases h : dedupKey r ∈ seen
    · rw [show remove_duplicates_aux seen (r :: rs) = remove_duplicates_aux seen rs from by
        simp [remove_duplicates_aux, h]]
      rw [ih seen]
      congr 1
      simp [List.filter, h]
    · have hstep : remove_duplicates_aux seen (r :: rs) =
          r :: remove_duplicates_aux (dedupKey r :: seen) rs := by
        simp [remove_duplicates_aux, h]
      rw [hstep, ih (dedupKey r :: seen)]
      have hfil : (r :: rs).filter (fun x => decide (dedupKey x ∉ seen)) =
          r :: rs.filter (fun x => decide (dedupKey x ∉ seen)) := by
        simp [List.filter, h]
      rw [hfil, keepFirstOccurrences]
      congr 1
      rw [List.filter_filter]
      refine congrArg keepFirstOccurrences ?_
      apply List.filter_congr
      intro x _
      by_cases hx1 : dedupKey x = dedupKey r <;> by_cases hx2 : dedupKey x ∈ seen <;>
        simp [hx1, hx2]

theorem remove_duplicates_aux_sublist (rs : List Route) :
    ∀ seen, (remove_duplicates_aux seen rs).Sublist rs := by
  induction rs with
  | nil => intro seen; simp [remove_duplicates_aux]
  | cons r rs ih =>
    intro seen
    by_cases h : dedupKey r ∈ seen <;> simp only [remove_duplicates_aux, h, if_pos, if_neg,
      not_false_iff, ite_true, ite_false]
    · exact (ih seen).cons r
    · exact (ih _).cons₂ r

/-- Claim C3: `_remove_duplicates` keeps exactly the first occurrence of
each `(distance, duration, strategy)` key — it equals the spec-side
first-occurrence filter — and its output is a sublist of the input, so
output order is the order of first insertion. -/
theorem remove_duplicates_spec (routes : List Route) :
    remove_duplicates routes =
      keepFirstOccurrences routes ∧
    (remove_duplicates routes).Sublist routes := by
  constructor
  · rw [remove_duplicates, remove_duplicates_aux_eq_keepFirst]
    congr 1
    simp
  · exact remove_duplicates_aux_sublist routes []

theorem mem_remove_duplicates_aux_key_not_seen (rs : List Route) :
    ∀ seen x, x ∈ remove_duplicates_aux seen rs → dedupKey x ∉ seen := by
  induction rs with
  | nil => intro seen x hx; simp [remove_duplicates_aux] at hx
  | cons r rs ih =>
    intro seen x hx
    by_cases h : dedupKey r ∈ seen
    · rw [show remove_duplicates_aux seen (r :: rs) = remove_duplicates_aux seen rs from by
        simp [remove_duplicates_aux, h]] at hx
      exact ih seen x hx
    · rw [show remove_duplicates_aux seen (r :: rs) =
          r :: remove_duplicates_aux (dedupKey r :: seen) rs from by
        simp [remove_duplicates_aux, h]] at hx
      rcases List.mem_cons.mp hx with rfl | hx'
      · exact h
      · intro hmem
        exact ih _ x hx' (List.mem_cons_of_mem _ hmem)

theorem remove_duplicates_aux_pairwise (rs : List Route) :
    ∀ seen, (remove_duplicates_aux seen rs).Pairwise
      (fun a b => dedupKey a ≠ dedupKey b) := by
  induction rs with
  | nil => intro seen; simp [remove_duplicates_aux]
  | cons r rs ih =>
    intro seen
    by_cases h : dedupKey r ∈ seen
    · rw [show remove_duplicates_aux seen (r :: rs) = remove_duplicates_aux seen rs from by
        simp [remove_duplicates_aux, h]]
      exact ih seen
    · rw [show remove_duplicates_aux seen (r :: rs) =
          r :: remove_duplicates_aux (dedupKey r :: seen) rs from by
        simp [remove_duplicates_aux, h]]
      refine List.Pairwise.cons ?_ (ih _)
      intro b hb hkey
      exact mem_remove_duplicates_aux_key_not_seen rs _ b hb (hkey ▸ List.mem_cons_self _ _)

theorem remove_duplicates_aux_of_pairwise (rs : List Route) :
    ∀ seen, rs.Pairwise (fun a b => dedupKey a ≠ dedupKey b) →
      (∀ r ∈ rs, dedupKey r ∉ seen) →
      remove_duplicates_aux seen rs = rs := by
  induction rs with
  | nil => intro seen _ _; rfl
  | cons r rs ih =>
    intro seen hpw hseen
    have hr : dedupKey r ∉ seen := hseen r (List.mem_cons_self _ _)
    rw [show remove_duplicates_aux seen (r :: rs) =
        r :: remove_duplicates_aux (dedupKey r :: seen) rs from by
      simp [remove_duplicates_aux, hr]]
    congr 1
    apply ih _ (List.Pairwise.of_cons hpw)
    intro x hx
    simp only [List.mem_cons, not_or]
    refine ⟨?_, hseen x (List.mem_cons_of_mem _ hx)⟩
    intro hk
    exact (List.pairwise_cons.mp hpw).1 x hx hk.symm

/-- Claim C4: deduplication is idempotent — applying `_remove_duplicates`
to its own output returns that output unchanged. -/
theorem remove_duplicates_idempotent (routes : List Route) :
    remove_duplicates (remove_duplicates routes) = remove_duplicates routes := by
  apply remove_duplicates_aux_of_pairwise
  · exact remove_duplicates_aux_pairwise routes []
  · intro r _ hmem
    simp at hmem

/-- One leg of a provider route: the fields the code reads from
`r["legs"][0]`. -/
structure DirectionsLeg where
  distance_value : ℤ
  duration_value : ℤ
  distance_text : String
  duration_text : String
  deriving DecidableEq, Repr

/-- One provider route from the directions response.  `summary` is
optional because the code reads it with `r.get("summary", "")`. -/
structure DirectionsRoute where
  summary : Option String
  legs : List DirectionsLeg
  overview_polyline_points : String
  deriving DecidableEq, Repr

/-- The JSON body of a directions response: its `status` and `routes`. -/
structure DirectionsResponse where
  status : String
  routes : List DirectionsRoute
  deriving DecidableEq, Repr

/-- `EnhancedRouteOptimizer._get_routes_google_api` from trip_planner.py
with the HTTP call replaced by the decoded response value: when the
status is `"OK"` each provider route is normalized into a `Route` tagged
with the strategy (reading `legs[0]` can raise `IndexError`); any other
status falls through to `return routes` with the list still empty. -/
def get_routes_google_api (resp : DirectionsResponse) (strategy : String) :
    Except PyExc (List Route) :=
  if resp.status = "OK" then
    resp.routes.mapM fun r =>
      match r.legs with
      | [] => .error .indexError
      | leg :: _ => .ok
          { summary := r.summary.getD ""
            distance := leg.distance_value
            duration := leg.duration_value
            distance_text := leg.distance_text
            duration_text := leg.duration_text
            polyline := r.overview_polyline_points
            strategy := strategy }
  else .ok []

/-- The renumbering loop of `get_all_route_strategies`:
`for i, r in enumerate(all_routes, start=i0): r["route_number"] = i`. -/
def renumber_from (i : ℤ) : List Route → List Route
  | [] => []
  | r :: rs => { r with route_number := some i } :: renumber_from (i + 1) rs

/-- The DRIVE-only part of `get_all_route_strategies`: the two extra
strategy queries (`No Highways`, `No Tolls`), issued only when the mode
is DRIVE; any other mode contributes no extra routes. -/
def get_extra_strategy_routes (respNoHighways respNoTolls : DirectionsResponse)
    (mode : TravelMode) : Except PyExc (List Route) :=
  if mode = TravelMode.DRIVE then
    match get_routes_google_api respNoHighways "No Highways" with
    | .error e => .error e
    | .ok noHighways =>
      match get_routes_google_api respNoTolls "No Tolls" with
      | .error e => .error e
      | .ok noTolls => .ok (noHighways ++ noTolls)
  else .ok []

/-- `EnhancedRouteOptimizer.get_all_route_strategies` from
trip_planner.py, taking the three directions responses the provider
would return for the Default / No Highways / No Tolls queries (the
latter two are only issued for DRIVE): concatenate, deduplicate,
renumber from 1. -/
def get_all_route_strategies (respDefault respNoHighways respNoTolls : DirectionsResponse)
    (mode : TravelMode) : Except PyExc (List Route) :=
  match get_routes_google_api respDefault "Default" with
  | .error e => .error e
  | .ok defaultRoutes =>
    match get_extra_strategy_routes respNoHighways respNoTolls mode with
    | .error e => .error e
    | .ok extraRoutes =>
      .ok (renumber_from 1 (remove_duplicates (defaultRoutes ++ extraRoutes)))

/-- A concrete non-OK directions response (the provider found no route),
which nonetheless carries a syntactically well-formed route entry. -/
def zeroResultsResp : DirectionsResponse :=
  { status := "ZERO_RESULTS"
    routes := [{ summary := some "NH 48"
                 legs := [{ distance_value := 120, duration_value := 60,
                            distance_text := "120 m", duration_text := "1 min" }]
                 overview_polyline_points := "abc" }] }

/-- Counterexample to claim C6: on a non-OK provider status the route
fetch does not raise any error — it succeeds with an empty route list. -/
theorem get_routes_non_ok_no_error :
    zeroResultsResp.status ≠ "OK" ∧
    get_routes_google_api zeroResultsResp "Default" = .ok [] := by
  constructor
  · decide
  · rfl

/-- Claim C6 as amended: for every directions response whose status is
not `"OK"`, the route fetch succeeds with an empty route list (no
exception of any kind is raised; the code defines no `UpstreamError`). -/
theorem get_routes_non_ok_empty (resp : DirectionsResponse) (strategy : String)
    (h : resp.status ≠ "OK") :
    get_routes_google_api resp strategy = .ok [] := by
  simp [get_routes_google_api, h]

/-- Witness for the amended C6, instantiated at `zeroResultsResp`. -/
theorem get_routes_non_ok_empty_witness :
    get_routes_google_api zeroResultsResp "No Tolls" = .ok [] :=
  get_routes_non_ok_empty zeroResultsResp "No Tolls" (by decide)

/-- A JSON-serializable value stored in a route dictionary.  The nested
`fare_info` dictionary is kept as a structured `FareInfo` value. -/
inductive RVal where
  | str : String → RVal
  | int : ℤ → RVal
  | fareInfo : FareInfo → RVal
  deriving DecidableEq, Repr

/-- The items of a route dictionary in Python insertion order: the seven
keys set by `_get_routes_google_api`, then `route_number` (if assigned
by `get_all_route_strategies`), then `fare_info` (if assigned by
`process_routes_with_fares`). -/
def Route.items (r : Route) : List (String × RVal) :=
  [("summary", RVal.str r.summary),
   ("distance", RVal.int r.distance),
   ("duration", RVal.int r.duration),
   ("distance_text", RVal.str r.distance_text),
   ("duration_text", RVal.str r.duration_text),
   ("polyline", RVal.str r.polyline),
   ("strategy", RVal.str r.strategy)]
  ++ (match r.route_number with
      | some n => [("route_number", RVal.int n)]
      | none => [])
  ++ (match r.fare_info with
      | some fi => [("fare_info", RVal.fareInfo fi)]
      | none => [])

/-- The per-route dictionary comprehension inside `save_routes_data`:
`{k: v for k, v in r.items() if k != "polyline"}`. -/
def clean_route (d : List (String × RVal)) : List (String × RVal) :=
  d.filter fun kv => decide (kv.1 ≠ "polyline")

/-- The `trip` object of the persisted JSON document. -/
structure PersistedTrip where
  start : String
  ending : String
  mode : String
  generated_at : String
  deriving DecidableEq, Repr

/-- The whole persisted JSON document (`route_data.json`). -/
structure TripRecordData where
  trip : PersistedTrip
  routes : List (List (String × RVal))
  deriving DecidableEq, Repr

/-- `save_routes_data` from trip_planner.py with the file write replaced
by the JSON document it serializes: strips `polyline` from every route
dictionary and packs the trip metadata. -/
def save_routes_data (routes : List (List (String × RVal)))
    (start ending mode generated_at : String) : TripRecordData :=
  { trip := { start := start, ending := ending, mode := mode, generated_at := generated_at }
    routes := routes.map clean_route }

/-- `EnhancedRouteOptimizer.process_routes_with_fares` from
trip_planner.py: annotate every route with its fare info. -/
def process_routes_with_fares (routes : List Route) (mode : TravelMode) : List Route :=
  routes.map fun r =>
    { r with fare_info := some (get_comprehensive_fares (r.distance : ℚ) mode) }

theorem lookup_clean_polyline (d : List (String × RVal)) :
    List.lookup "polyline" (clean_route d) = none := by
  induction d with
  | nil => rfl
  | cons kv rest ih =>
    obtain ⟨k, v⟩ := kv
    by_cases hk : k = "polyline"
    · simpa [clean_route, List.filter, hk] using ih
    · have hne : ("polyline" == k) = false := by
        simp [beq_iff_eq]
        exact fun h => hk h.symm
      simpa [clean_route, List.filter, hk, List.lookup, hne] using ih

theorem lookup_clean_other (d : List (String × RVal)) (key : String)
    (h : key ≠ "polyline") :
    List.lookup key (clean_route d) = List.lookup key d := by
  induction d with
  | nil => rfl
  | cons kv rest ih =>
    obtain ⟨k, v⟩ := kv
    by_cases hk : k = "polyline"
    · subst hk
      have hne : (key == "polyline") = false := by
        simp [beq_iff_eq]
        exact h
      simp [clean_route, List.filter, List.lookup, hne] at ih ⊢
      exact ih
    · by_cases hkey : key = k
      · simp [clean_route, List.filter, hk, List.lookup, hkey]
      · have hne : (key == k) = false := by simp [beq_iff_eq]; exact hkey
        simp [clean_route, List.filter, hk, List.lookup, hne] at ih ⊢
        exact ih

/-- Claim C9: persisting a routes list with `save_routes_data` writes
exactly the per-route cleaned dictionaries; in each the `polyline` key
is absent and every other key maps to the same value as in the original
route dictionary. -/
theorem save_routes_data_round_trip (routes : List (List (String × RVal)))
    (start ending mode generated_at : String) :
    (save_routes_data routes start ending mode generated_at).routes =
      routes.map clean_route ∧
    ∀ d ∈ routes,
      List.lookup "polyline" (clean_route d) = none ∧
      ∀ key, key ≠ "polyline" →
        List.lookup key (clean_route d) = List.lookup key d := by
  refine ⟨rfl, ?_⟩
  intro d _
  exact ⟨lookup_clean_polyline d, fun key hkey => lookup_clean_other d key hkey⟩

/-- Witness for C9 at a concrete one-route list: the persisted dict
drops `polyline` and keeps `strategy` and `route_number` unchanged. -/
theorem save_routes_data_round_trip_witness :
    List.lookup "polyline"
      (clean_route [("strategy", RVal.str "Default"), ("polyline", RVal.str "p"),
                    ("route_number", RVal.int 1)]) = none ∧
    List.lookup "route_number"
      (clean_route [("strategy", RVal.str "Default"), ("polyline", RVal.str "p"),
                    ("route_number", RVal.int 1)]) =
      List.lookup "route_number"
        [("strategy", RVal.str "Default"), ("polyline", RVal.str "p"),
         ("route_number", RVal.int 1)] := by
  have h := (save_routes_data_round_trip
    [[("strategy", RVal.str "Default"), ("polyline", RVal.str "p"),
      ("route_number", RVal.int 1)]] "Mumbai" "Pune" "DRIVE" "t").2
    [("strategy", RVal.str "Default"), ("polyline", RVal.str "p"),
     ("route_number", RVal.int 1)] (by simp)
  exact ⟨h.1, h.2 "route_number" (by decide)⟩

theorem renumber_from_length (l : List Route) :
    ∀ i : ℤ, (renumber_from i l).length = l.length := by
  induction l with
  | nil => intro i; rfl
  | cons r rs ih =>
    intro i
    simp [renumber_from, ih (i + 1)]

theorem renumber_from_map_route_number (l : List Route) :
    ∀ i : ℤ, (renumber_from i l).map Route.route_number =
      (List.range l.length).map fun (k : ℕ) => some (i + (k : ℤ)) := by
  induction l with
  | nil => intro i; rfl
  | cons r rs ih =>
    intro i
    rw [renumber_from, List.map_cons, ih (i + 1), List.length_cons,
      List.range_succ_eq_map, List.map_cons, List.map_map]
    congr 1
    · simp
    · congr 1
      funext k
      simp only [Function.comp_apply, Option.some.injEq]
      push_cast
      ring

theorem lookup_route_number_items (r : Route) (n : ℤ)
    (h1 : r.route_number = some n) :
    List.lookup "route_number" (clean_route (Route.items r)) = some (RVal.int n) := by
  cases h2 : r.fare_info <;>
    simp +decide [Route.items, h1, h2, clean_route, List.filter, List.lookup]

theorem process_renumber_lookup (mode : TravelMode) (l : List Route) :
    ∀ i : ℤ,
      (process_routes_with_fares (renumber_from i l) mode).map
        (fun r => List.lookup "route_number" (clean_route r.items)) =
      (List.range l.length).map fun (k : ℕ) => some (RVal.int (i + (k : ℤ))) := by
  induction l with
  | nil => intro i; rfl
  | cons r rs ih =>
    intro i
    simp only [process_routes_with_fares] at ih ⊢
    rw [renumber_from, List.map_cons, List.map_cons, ih (i + 1), List.length_cons,
      List.range_succ_eq_map, List.map_cons, List.map_map]
    congr 1
    · rw [lookup_route_number_items _ i rfl]
      simp
    · congr 1
      funext k
      simp only [Function.comp_apply, Option.some.injEq, RVal.int.injEq]
      push_cast
      ring

theorem get_all_route_strategies_shape (respD respH respT : DirectionsResponse)
    (mode : TravelMode) (rs : List Route)
    (h : get_all_route_strategies respD respH respT mode = Except.ok rs) :
    ∃ l, rs = renumber_from 1 l := by
  unfold get_all_route_strategies at h
  cases hd : get_routes_google_api respD "Default" with
  | error e => rw [hd] at h; cases h
  | ok d =>
    rw [hd] at h
    cases hx : get_extra_strategy_routes respH respT mode with
    | error e => rw [hx] at h; cases h
    | ok extra =>
      rw [hx] at h
      cases h
      exact ⟨_, rfl⟩

/-- Claim C1: whatever the provider returns, a successful
`get_all_route_strategies` call yields routes whose `route_number`
fields are exactly the contiguous sequence 1..N in list order (N the
length of the deduplicated list), and the same contiguous numbering is
what `save_routes_data` stores for the fare-annotated routes in the
persisted TripRecord. -/
theorem route_numbers_contiguous (respD respH respT : DirectionsResponse)
    (mode : TravelMode) (rs : List Route)
    (h : get_all_route_strategies respD respH respT mode = Except.ok rs) :
    rs.map Route.route_number =
      (List.range rs.length).map (fun (k : ℕ) => some (1 + (k : ℤ))) ∧
    ∀ start ending modeStr generated_at,
      ((save_routes_data ((process_routes_with_fares rs mode).map Route.items)
          start ending modeStr generated_at).routes).map
        (fun d => List.lookup "route_number" d) =
      (List.range rs.length).map (fun (k : ℕ) => some (RVal.int (1 + (k : ℤ)))) := by
  obtain ⟨l, rfl⟩ := get_all_route_strategies_shape respD respH respT mode rs h
  rw [renumber_from_length l 1]
  constructor
  · exact renumber_from_map_route_number l 1
  · intro start ending modeStr generated_at
    have hmain := process_renumber_lookup mode l 1
    simp only [save_routes_data, List.map_map]
    simpa [Function.comp] using hmain

/-- A concrete OK directions response with two alternatives
(Mumbai → Pune shaped data). -/
def respMumbaiPune : DirectionsResponse :=
  { status := "OK"
    routes := [{ summary := some "NH 48"
                 legs := [{ distance_value := 149000, duration_value := 9000,
                            distance_text := "149 km", duration_text := "2 hours 30 mins" }]
                 overview_polyline_points := "poly1" },
               { summary := none
                 legs := [{ distance_value := 155000, duration_value := 9600,
                            distance_text := "155 km", duration_text := "2 hours 40 mins" }]
                 overview_polyline_points := "poly2" }] }

/-- The routes `get_all_route_strategies` produces from
`respMumbaiPune` in WALK mode (so only the Default strategy runs). -/
def mumbaiPuneWalkRoutes : List Route :=
  [{ summary := "NH 48", distance := 149000, duration := 9000,
     distance_text := "149 km", duration_text := "2 hours 30 mins",
     polyline := "poly1", strategy := "Default", route_number := some 1 },
   { summary := "", distance := 155000, duration := 9600,
     distance_text := "155 km", duration_text := "2 hours 40 mins",
     polyline := "poly2", strategy := "Default", route_number := some 2 }]

/-- Witness for C1: on the concrete two-alternative response the call
succeeds and the theorem yields the numbering [1, 2]. -/
theorem route_numbers_contiguous_witness :
    get_all_route_strategies respMumbaiPune respMumbaiPune respMumbaiPune TravelMode.WALK =
      Except.ok mumbaiPuneWalkRoutes ∧
    mumbaiPuneWalkRoutes.map Route.route_number = [some 1, some 2] := by
  have h1 : get_all_route_strategies respMumbaiPune respMumbaiPune respMumbaiPune
      TravelMode.WALK = Except.ok mumbaiPuneWalkRoutes := by rfl
  have h2 := (route_numbers_contiguous respMumbaiPune respMumbaiPune respMumbaiPune
    TravelMode.WALK mumbaiPuneWalkRoutes h1).1
  refine ⟨h1, ?_⟩
  rw [h2]
  decide

/-- A geocoding hit's `geometry.location`. -/
structure GeoLocation where
  lat : ℚ
  lng : ℚ
  deriving DecidableEq, Repr

/-- One element of the geocoding response's `results` array. -/
structure GeoResult where
  location : GeoLocation
  formatted_address : String
  deriving DecidableEq, Repr

/-- The JSON body of a geocoding response; `results` is `none` when the
key is absent from the body. -/
structure GeocodeResponse where
  results : Option (List GeoResult)
  deriving DecidableEq, Repr

/-- `EnhancedRouteOptimizer.geocode_place` from trip_planner.py with the
HTTP call replaced by the decoded response: it reads
`resp["results"][0]` — a missing `results` key raises `KeyError`, an
empty list raises `IndexError` — and returns the location dict, the
coordinate pair and the formatted address. -/
def geocode_place (resp : GeocodeResponse) :
    Except PyExc (GeoLocation × (ℚ × ℚ) × String) :=
  match resp.results with
  | none => .error (.keyError "results")
  | some [] => .error .indexError
  | some (r0 :: _) =>
    .ok (r0.location, (r0.location.lat, r0.location.lng), r0.formatted_address)

/-- Claim C7: when the geocoding service returns zero results or a body
without a results list, `geocode_place` raises an exception that is a
`LookupError` (`KeyError` and `IndexError` both subclass it) and never
returns coordinates. -/
theorem geocode_place_raises_lookup_error (resp : GeocodeResponse)
    (h : resp.results = none ∨ resp.results = some []) :
    ∃ e, geocode_place resp = .error e ∧ e.isLookupError = true := by
  rcases h with h | h
  · exact ⟨.keyError "results", by simp [geocode_place, h], rfl⟩
  · exact ⟨.indexError, by simp [geocode_place, h], rfl⟩

/-- Witness for C7 at the empty-results response. -/
theorem geocode_place_raises_lookup_error_witness :
    ∃ e, geocode_place { results := some [] } = .error e ∧ e.isLookupError = true :=
  geocode_place_raises_lookup_error { results := some [] } (Or.inr rfl)

/-- The names of the `TravelMode` enum members. -/
def travelModeNames : List String :=
  ["DRIVE", "WALK", "BICYCLE", "TRANSIT", "TWO_WHEELER"]

/-- Python's `str.upper()` on the ASCII strings this code handles:
upper-case every character. -/
def pyUpper (s : String) : String := ⟨s.data.map Char.toUpper⟩

/-- `getattr(TravelMode, travel_mode.upper(), TravelMode.DRIVE)` from
`plan_trip_with_routes` in trip_planner.py: the upper-cased string
resolves to the matching member; any other string falls back silently
to DRIVE. -/
def resolve_travel_mode (travel_mode : String) : TravelMode :=
  match pyUpper travel_mode with
  | "DRIVE" => .DRIVE
  | "WALK" => .WALK
  | "BICYCLE" => .BICYCLE
  | "TRANSIT" => .TRANSIT
  | "TWO_WHEELER" => .TWO_WHEELER
  | _ => .DRIVE

/-- Claim C8: a travel-mode string whose upper-cased form names an enum
member resolves to that member, and every string whose upper-cased form
is outside the enumeration resolves to DRIVE — silently, since the
resolution is total and raises nothing. -/
theorem resolve_travel_mode_spec (s : String) :
    (∀ m : TravelMode, pyUpper s = m.value → resolve_travel_mode s = m) ∧
    (pyUpper s ∉ travelModeNames → resolve_travel_mode s = TravelMode.DRIVE) := by
  constructor
  · intro m hm
    cases m <;> simp only [TravelMode.value] at hm <;>
      (unfold resolve_travel_mode; rw [hm]; rfl)
  · intro hs
    simp only [travelModeNames, List.mem_cons, List.mem_singleton, not_or] at hs
    unfold resolve_travel_mode
    split <;> simp_all

/-- Witness for C8: "bicycle" upper-cases to a member and resolves to
BICYCLE; "flying" upper-cases outside the enumeration and resolves to
DRIVE. -/
theorem resolve_travel_mode_spec_witness :
    resolve_travel_mode "bicycle" = TravelMode.BICYCLE ∧
    resolve_travel_mode "flying" = TravelMode.DRIVE := by
  constructor
  · exact (resolve_travel_mode_spec "bicycle").1 TravelMode.BICYCLE (by decide)
  · exact (resolve_travel_mode_spec "flying").2 (by decide)

/-- Python's `str.strip()` with no argument: drop leading and trailing
whitespace characters. -/
def pyStrip (s : String) : String :=
  ⟨((s.data.dropWhile Char.isWhitespace).reverse.dropWhile Char.isWhitespace).reverse⟩

/-- The `TripResponse` pydantic model of main.py. -/
structure TripResponse where
  success : Bool
  message : String
  data_file : Option String
  map_file : Option String
  deriving DecidableEq, Repr

/-- The dict returned by `plan_trip_with_routes` on success. -/
structure PlanOutcome where
  map_file : String
  data_file : String
  routes_found : ℕ
  deriving DecidableEq, Repr

/-- The `try` body of the `POST /plan-trip` handler (main.py
`plan_trip`): blank validation raises `HTTPException(400, ...)`;
otherwise the planner runs (`planner` stands for the
`plan_trip_with_routes` call, whose exceptions propagate) and a success
response is built from its result dict. -/
def plan_trip_try_body (start_point end_point : String)
    (planner : Except PyExc PlanOutcome) : Except PyExc TripResponse :=
  if pyStrip start_point = "" ∨ pyStrip end_point = "" then
    .error (.httpException 400 "Start point and end point are required")
  else
    match planner with
    | .error e => .error e
    | .ok result =>
      .ok { success := true, message := "Trip planned successfully",
            data_file := some result.data_file, map_file := some result.map_file }

/-- The whole `plan_trip` handler: `except Exception as e` catches every
exception raised in the body — including the `HTTPException(400, ...)`
from its own validation, since `HTTPException` subclasses `Exception` —
and re-raises `HTTPException(500, f"Error planning trip: {str(e)}")`. -/
def plan_trip (start_point end_point : String)
    (planner : Except PyExc PlanOutcome) : Except PyExc TripResponse :=
  match plan_trip_try_body start_point end_point planner with
  | .ok r => .ok r
  | .error e => .error (.httpException 500 ("Error planning trip: " ++ e.pyStr))

/-- Claim C5 (code bug): a blank or whitespace-only start point does not
produce an HTTP 400 — the handler's own blanket `except Exception`
catches the `HTTPException(400, ...)` and re-raises it as a 500 whose
detail wraps the 400 message.  The result is the same for every
planner, so `plan_trip_with_routes` is never invoked and no map or data
files are written. -/
theorem plan_trip_blank_start_gives_500 (end_point : String)
    (planner : Except PyExc PlanOutcome) :
    plan_trip "" end_point planner =
      .error (.httpException 500
        "Error planning trip: 400: Start point and end point are required") ∧
    plan_trip "   " end_point planner =
      .error (.httpException 500
        "Error planning trip: 400: Start point and end point are required") := by
  constructor <;> rfl

/-- A persisted record with an empty routes list. -/
def emptyRoutesRecord : TripRecordData :=
  { trip := { start := "Mumbai", ending := "Pune", mode := "WALK", generated_at := "t" }
    routes := [] }

/-- Python `d[k]` on a route dictionary: `KeyError` when absent. -/
def dict_get (d : List (String × RVal)) (k : String) : Except PyExc RVal :=
  match List.lookup k d with
  | some v => .ok v
  | none => .error (.keyError k)

/-- `generate_travel_insights_pdf` from travel_guide.py with the file
read replaced by the parsed record, the Gemini HTTP call by the
`gemini` oracle and the ReportLab write by returning the PDF path: it
reads `routes[0]` (IndexError on an empty list), the main route's
strategy / distance_text / duration_text, then
`list(main_route["fare_info"]["fares"].values())[0]["fare"]`
(IndexError when the fares dict is empty), and only then calls the
text-generation service and writes the PDF. -/
def generate_travel_insights_pdf (record : TripRecordData)
    (gemini : Except PyExc String) (output_pdf : String) : Except PyExc String :=
  match record.routes with
  | [] => .error .indexError
  | main_route :: _ =>
    match dict_get main_route "strategy" with
    | .error e => .error e
    | .ok _strategy =>
      match dict_get main_route "distance_text" with
      | .error e => .error e
      | .ok _distance =>
        match dict_get main_route "duration_text" with
        | .error e => .error e
        | .ok _duration =>
          match dict_get main_route "fare_info" with
          | .error e => .error e
          | .ok (RVal.fareInfo f) =>
            match f.fares with
            | [] => .error .indexError
            | _ :: _ =>
              match gemini with
              | .error e => .error e
              | .ok _insights => .ok output_pdf
          | .ok _ => .error .typeError

/-- Claim C10: for a persisted record with no routes, or whose first
route's fare_info has an empty fares mapping, guide generation raises
before the text-generation call or any PDF write — the outcome is an
error for every possible service response. -/
theorem guide_generation_fails_on_empty (record : TripRecordData)
    (gemini : Except PyExc String) (output_pdf : String)
    (h : record.routes = [] ∨
      ∃ main rest f, record.routes = main :: rest ∧
        List.lookup "fare_info" main = some (RVal.fareInfo f) ∧ f.fares = []) :
    ∃ e, generate_travel_insights_pdf record gemini output_pdf = .error e := by
  rcases h with h | ⟨main, rest, f, hmr, hf, hff⟩
  · exact ⟨.indexError, by simp [generate_travel_insights_pdf, h]⟩
  · have h4 : dict_get main "fare_info" = Except.ok (RVal.fareInfo f) := by
      simp [dict_get, hf]
    unfold generate_travel_insights_pdf
    rw [hmr]
    cases h1 : dict_get main "strategy" with
    | error e => exact ⟨e, by simp [h1]⟩
    | ok v1 =>
      cases h2 : dict_get main "distance_text" with
      | error e => exact ⟨e, by simp [h1, h2]⟩
      | ok v2 =>
        cases h3 : dict_get main "duration_text" with
        | error e => exact ⟨e, by simp [h1, h2, h3]⟩
        | ok v3 =>
          exact ⟨.indexError, by simp [h1, h2, h3, h4, hff]⟩

/-- Witness for C10 at the empty-routes record, with a service oracle
that would succeed: generation still fails. -/
theorem guide_generation_fails_on_empty_witness :
    ∃ e, generate_travel_insights_pdf emptyRoutesRecord (Except.ok "enjoy the trip")
      "guide.pdf" = .error e :=
  guide_generation_fails_on_empty emptyRoutesRecord (Except.ok "enjoy the trip")
    "guide.pdf" (Or.inl rfl)

end TourGuide
